import Mathlib

/-!
Shallow embedding of `property_bot.py` (AziziTGBot): a Telegram bot that
relays real-estate listings from a Google spreadsheet.  The handlers are
modelled as pure functions from their inputs (fetched rows, send-failure
oracle, callback data) to the ordered trace of messages they send.
-/

namespace PropertyBot

/-- The client's WhatsApp number (`WHATSAPP_NUMBER` in the source). -/
def WHATSAPP_NUMBER : String := "+60175773070"

/-- `f"https://wa.me/{WHATSAPP_NUMBER}"` as built in `button_click` and
`list_properties`. -/
def whatsappLink : String := "https://wa.me/" ++ WHATSAPP_NUMBER

/-- Python whitespace characters stripped by `str.strip()` (ASCII set). -/
def isPySpace (c : Char) : Bool :=
  c = ' ' || c = '\t' || c = '\n' || c = '\r' || c = '\x0b' || c = '\x0c'

/-- Python `str.strip()`: remove leading and trailing whitespace. -/
def pyStrip (s : String) : String :=
  ⟨(s.data.dropWhile isPySpace).rdropWhile isPySpace⟩

/-- Python `str.split(sep)` for a one-character separator `c`: split the
character list at every occurrence of `c`.  On the empty string it returns
`[[]]`, matching Python's `"".split(',') == ['']`. -/
def splitOnChar (c : Char) : List Char → List (List Char)
  | [] => [[]]
  | x :: xs =>
    if x = c then [] :: splitOnChar c xs
    else
      match splitOnChar c xs with
      | [] => [[x]]
      | y :: ys => (x :: y) :: ys

/-- Python `s.split(',')` at the `String` level. -/
def pySplitComma (s : String) : List String :=
  (splitOnChar ',' s.data).map fun l => ⟨l⟩

/-- `[url.strip() for url in field.split(',')]` (line 108 of the source),
applied to the row's last field. -/
def image_urls (field : String) : List String :=
  (pySplitComma field).map pyStrip

/-- The `property_info` f-string assembled for a row (lines 101-107).
Fields are read with a default, mirroring `row[i]` under the guard
`len(row) >= 6`. -/
def property_info (row : List String) : String :=
  "💰 Price: " ++ row.getD 0 "" ++ "\n" ++
  "📍 Location: " ++ row.getD 1 "" ++ "\n" ++
  "📐 Size: " ++ row.getD 2 "" ++ "\n" ++
  "🛏️ Bedrooms: " ++ row.getD 3 "" ++ "\n" ++
  "ℹ️ Details: " ++ row.getD 4 ""

/-- Python `", ".join(urls)` (used in the fallback text of line 118). -/
def joinComma : List String → String
  | [] => ""
  | [u] => u
  | u :: us => u ++ ", " ++ joinComma us

/-- One message sent through the chat API.  `menuMsg` is a `reply_text`
that carries the main-menu inline keyboard; `answer` is the
`query.answer()` callback acknowledgement. -/
inductive Msg where
  | text : String → Msg
  | photoMsg : String → Msg
  | mediaGroup : List String → String → Msg
  | menuMsg : String → Msg
  | answer : Msg
deriving DecidableEq, Repr

/-- The body of the `for row in values` loop (lines 100-122): messages one
row contributes.  `ok urls caption` tells whether `reply_media_group`
succeeds for that media group (the oracle for the inner `try`/`except`). -/
def renderRow (ok : List String → String → Bool) (row : List String) : List Msg :=
  if 6 ≤ row.length then
    let info := property_info row
    let urls := image_urls (row.getD 5 "")
    if urls.isEmpty then
      [Msg.text info]
    else
      if ok urls info then
        [Msg.mediaGroup urls info]
      else
        [Msg.text (info ++ "\n\nImages: " ++ joinComma urls)]
  else []

/-- `list_properties` (lines 85-130).  `fetch` is the outcome of the
spreadsheet read: `.error` if any exception is raised, `.ok values`
otherwise.  Returns the trace of messages sent. -/
def list_properties (fetch : Except Unit (List (List String)))
    (ok : List String → String → Bool) : List Msg :=
  match fetch with
  | .error _ =>
      [Msg.text "An error occurred while fetching properties. Please try again later."]
  | .ok values =>
      if values.isEmpty then
        [Msg.text "No properties found."]
      else
        (values.map (renderRow ok)).flatten ++
          [Msg.text ("These are all the available properties. Contact the agent for more information: "
            ++ whatsappLink)]

/-- `show_main_menu` (lines 67-68). -/
def show_main_menu : List Msg :=
  [Msg.menuMsg "Please choose an option:"]

/-- The welcome caption used by `start`. -/
def welcomeText : String := "Welcome to Property Azizi Bot! How can I assist you today?"

/-- `start` (lines 55-65).  `hasWelcomeImage` tells whether opening
`welcome_image.jpg` succeeds; otherwise the `FileNotFoundError` branch
sends the text fallback. -/
def start (hasWelcomeImage : Bool) : List Msg :=
  (if hasWelcomeImage then [Msg.photoMsg welcomeText] else [Msg.text welcomeText])
    ++ show_main_menu

/-- `menu_command` (lines 132-133): it only calls `show_main_menu`. -/
def menu_command : List Msg :=
  show_main_menu

/-- `button_click` (lines 70-83): acknowledge the callback, dispatch on
`query.data`, then always re-show the menu. -/
def button_click (data : String) (fetch : Except Unit (List (List String)))
    (ok : List String → String → Bool) : List Msg :=
  Msg.answer ::
    (if data = "profile" then
      [Msg.text "Here\x27s the Property Agent Profile: [Add profile details here]"]
    else if data = "properties" then
      list_properties fetch ok
    else if data = "whatsapp" then
      [Msg.text ("Click here to chat on WhatsApp: " ++ whatsappLink)]
    else []) ++
    [Msg.menuMsg "What else would you like to do?"]

/-- Does a message carry the main-menu keyboard? -/
def isMenuMsg : Msg → Bool
  | Msg.menuMsg _ => true
  | _ => false

/-- Number of menu messages in a trace. -/
def countMenu (trace : List Msg) : Nat :=
  trace.countP isMenuMsg

/-! ### Helper lemmas -/

theorem append_ne_empty_left (s t : String) (h : s ≠ "") : s ++ t ≠ "" := by
  intro he
  apply h
  apply String.ext
  have hd : s.data ++ t.data = [] := by
    have hc := congrArg String.data he
    rwa [String.data_append] at hc
  exact (List.append_eq_nil.mp hd).1

theorem splitOnChar_ne_nil (c : Char) : ∀ l : List Char, splitOnChar c l ≠ []
  | [] => by simp [splitOnChar]
  | x :: xs => by
    unfold splitOnChar
    split
    · simp
    · split <;> simp

theorem image_urls_ne_nil (s : String) : image_urls s ≠ [] := by
  unfold image_urls pySplitComma
  intro h
  simp only [List.map_eq_nil_iff] at h
  exact splitOnChar_ne_nil ',' s.data h

theorem countMenu_renderRow (ok : List String → String → Bool) (row : List String) :
    countMenu (renderRow ok row) = 0 := by
  unfold renderRow
  dsimp only
  split_ifs <;> rfl

theorem countMenu_append (a b : List Msg) :
    countMenu (a ++ b) = countMenu a + countMenu b :=
  List.countP_append _ _ _

theorem countMenu_flatten_renderRow (ok : List String → String → Bool) :
    ∀ values : List (List String), countMenu ((values.map (renderRow ok)).flatten) = 0
  | [] => rfl
  | row :: rest => by
    rw [List.map_cons, List.flatten_cons, countMenu_append,
      countMenu_renderRow, countMenu_flatten_renderRow ok rest]

theorem countMenu_list_properties (fetch : Except Unit (List (List String)))
    (ok : List String → String → Bool) : countMenu (list_properties fetch ok) = 0 := by
  cases fetch with
  | error e => rfl
  | ok values =>
    simp only [list_properties]
    split
    · rfl
    · rw [countMenu_append, countMenu_flatten_renderRow]
      rfl

theorem data_infix_of_append (a b c : String) : b.data <:+: (a ++ b ++ c).data := by
  rw [String.data_append, String.data_append]
  exact ⟨a.data, c.data, rfl⟩

theorem mem_joinComma_infix :
    ∀ (l : List String) (u : String), u ∈ l → u.data <:+: (joinComma l).data
  | [], u, hu => absurd hu (List.not_mem_nil u)
  | [v], u, hu => by
    rcases List.mem_singleton.mp hu with rfl
    simp only [joinComma]
    exact List.infix_rfl
  | v :: w :: ws, u, hu => by
    rcases List.mem_cons.mp hu with rfl | hmem
    · simp only [joinComma]
      rw [String.data_append, String.data_append]
      exact ⟨[], ", ".data ++ (joinComma (w :: ws)).data, by simp⟩
    · have ih := mem_joinComma_infix (w :: ws) u hmem
      simp only [joinComma]
      rw [String.data_append, String.data_append]
      exact ih.trans (List.suffix_append _ _).isInfix

theorem head?_dropWhile_not (p : α → Bool) :
    ∀ (l : List α) (x : α), (l.dropWhile p).head? = some x → p x = false
  | [], x, h => by simp [List.dropWhile] at h
  | a :: l, x, h => by
    rw [List.dropWhile_cons] at h
    split at h
    · exact head?_dropWhile_not p l x h
    · next hpa =>
        simp only [List.head?_cons, Option.some.injEq] at h
        subst h
        exact Bool.eq_false_iff.mpr hpa

theorem head?_of_prefix {l₁ l₂ : List α} (h : l₁ <+: l₂) (c : α)
    (hc : l₁.head? = some c) : l₂.head? = some c := by
  obtain ⟨t, rfl⟩ := h
  cases l₁ with
  | nil => simp at hc
  | cons a l => simpa using hc

/-! ### Claim theorems -/

/-- C1: for every row with at least 6 fields, the rendered display text
is non-empty and contains all five non-image field values (price,
location, size, bedrooms, details). -/
theorem listing_text_contains_all_fields (row : List String) (h : 6 ≤ row.length) :
    property_info row ≠ "" ∧
    (row.getD 0 "").data <:+: (property_info row).data ∧
    (row.getD 1 "").data <:+: (property_info row).data ∧
    (row.getD 2 "").data <:+: (property_info row).data ∧
    (row.getD 3 "").data <:+: (property_info row).data ∧
    (row.getD 4 "").data <:+: (property_info row).data := by
  refine ⟨?_, ?_, ?_, ?_, ?_, ?_⟩
  · have hs : property_info row = "💰 Price: " ++
        (row.getD 0 "" ++ "\n" ++ "📍 Location: " ++ row.getD 1 "" ++ "\n" ++
         "📐 Size: " ++ row.getD 2 "" ++ "\n" ++ "🛏️ Bedrooms: " ++ row.getD 3 "" ++
         "\n" ++ "ℹ️ Details: " ++ row.getD 4 "") := by
      simp [property_info, String.append_assoc]
    rw [hs]
    exact append_ne_empty_left _ _ (by decide)
  · have hs : property_info row = "💰 Price: " ++ row.getD 0 "" ++
        ("\n" ++ "📍 Location: " ++ row.getD 1 "" ++ "\n" ++ "📐 Size: " ++
         row.getD 2 "" ++ "\n" ++ "🛏️ Bedrooms: " ++ row.getD 3 "" ++ "\n" ++
         "ℹ️ Details: " ++ row.getD 4 "") := by
      simp [property_info, String.append_assoc]
    rw [hs]
    exact data_infix_of_append _ _ _
  · have hs : property_info row = ("💰 Price: " ++ row.getD 0 "" ++ "\n" ++
        "📍 Location: ") ++ row.getD 1 "" ++
        ("\n" ++ "📐 Size: " ++ row.getD 2 "" ++ "\n" ++ "🛏️ Bedrooms: " ++
         row.getD 3 "" ++ "\n" ++ "ℹ️ Details: " ++ row.getD 4 "") := by
      simp [property_info, String.append_assoc]
    rw [hs]
    exact data_infix_of_append _ _ _
  · have hs : property_info row = ("💰 Price: " ++ row.getD 0 "" ++ "\n" ++
        "📍 Location: " ++ row.getD 1 "" ++ "\n" ++ "📐 Size: ") ++ row.getD 2 "" ++
        ("\n" ++ "🛏️ Bedrooms: " ++ row.getD 3 "" ++ "\n" ++ "ℹ️ Details: " ++
         row.getD 4 "") := by
      simp [property_info, String.append_assoc]
    rw [hs]
    exact data_infix_of_append _ _ _
  · have hs : property_info row = ("💰 Price: " ++ row.getD 0 "" ++ "\n" ++
        "📍 Location: " ++ row.getD 1 "" ++ "\n" ++ "📐 Size: " ++ row.getD 2 "" ++
        "\n" ++ "🛏️ Bedrooms: ") ++ row.getD 3 "" ++
        ("\n" ++ "ℹ️ Details: " ++ row.getD 4 "") := by
      simp [property_info, String.append_assoc]
    rw [hs]
    exact data_infix_of_append _ _ _
  · have hs : property_info row = ("💰 Price: " ++ row.getD 0 "" ++ "\n" ++
        "📍 Location: " ++ row.getD 1 "" ++ "\n" ++ "📐 Size: " ++ row.getD 2 "" ++
        "\n" ++ "🛏️ Bedrooms: " ++ row.getD 3 "" ++ "\n" ++ "ℹ️ Details: ") ++
        row.getD 4 "" ++ "" := by
      simp [property_info, String.append_assoc]
    rw [hs]
    exact data_infix_of_append _ _ _

/-- Witness for C1 at a concrete six-field row. -/
theorem listing_text_contains_all_fields_witness :
    property_info ["RM 100", "KL", "1000 sqft", "3", "Nice", "a.jpg"] ≠ "" ∧
    ((["RM 100", "KL", "1000 sqft", "3", "Nice", "a.jpg"] : List String).getD 0 "").data <:+:
      (property_info ["RM 100", "KL", "1000 sqft", "3", "Nice", "a.jpg"]).data ∧
    ((["RM 100", "KL", "1000 sqft", "3", "Nice", "a.jpg"] : List String).getD 1 "").data <:+:
      (property_info ["RM 100", "KL", "1000 sqft", "3", "Nice", "a.jpg"]).data ∧
    ((["RM 100", "KL", "1000 sqft", "3", "Nice", "a.jpg"] : List String).getD 2 "").data <:+:
      (property_info ["RM 100", "KL", "1000 sqft", "3", "Nice", "a.jpg"]).data ∧
    ((["RM 100", "KL", "1000 sqft", "3", "Nice", "a.jpg"] : List String).getD 3 "").data <:+:
      (property_info ["RM 100", "KL", "1000 sqft", "3", "Nice", "a.jpg"]).data ∧
    ((["RM 100", "KL", "1000 sqft", "3", "Nice", "a.jpg"] : List String).getD 4 "").data <:+:
      (property_info ["RM 100", "KL", "1000 sqft", "3", "Nice", "a.jpg"]).data :=
  listing_text_contains_all_fields ["RM 100", "KL", "1000 sqft", "3", "Nice", "a.jpg"]
    (by decide)

/-- C5: when the spreadsheet fetch returns an empty row sequence, the
listings handler sends exactly one reply, the "No properties found."
message — no per-listing messages and no closing contact message. -/
theorem list_properties_empty_rows (ok : List String → String → Bool) :
    list_properties (.ok []) ok = [Msg.text "No properties found."] := rfl

/-- C8: when the spreadsheet fetch raises, the failure is caught inside
`list_properties`, exactly one generic error message is sent, and the
handler returns normally (the trace is defined, a single text reply). -/
theorem list_properties_fetch_error (ok : List String → String → Bool) :
    list_properties (.error ()) ok =
      [Msg.text "An error occurred while fetching properties. Please try again later."] := rfl

/-- C2: a spreadsheet row with fewer than 6 fields contributes no message
to the output — the row is skipped. -/
theorem short_row_contributes_nothing (ok : List String → String → Bool)
    (row : List String) (h : row.length < 6) : renderRow ok row = [] := by
  unfold renderRow
  rw [if_neg (by omega)]

/-- Witness for C2 at the concrete one-field row `["RM 100"]`. -/
theorem short_row_contributes_nothing_witness :
    renderRow (fun _ _ => true) ["RM 100"] = [] :=
  short_row_contributes_nothing (fun _ _ => true) ["RM 100"] (by decide)

/-- C10: a button click whose callback data is none of `profile`,
`properties`, `whatsapp` produces no handler-specific reply, but still
acknowledges the callback and sends exactly one menu message. -/
theorem unknown_button_ack_and_menu (data : String)
    (fetch : Except Unit (List (List String))) (ok : List String → String → Bool)
    (h1 : data ≠ "profile") (h2 : data ≠ "properties") (h3 : data ≠ "whatsapp") :
    button_click data fetch ok =
      [Msg.answer, Msg.menuMsg "What else would you like to do?"] := by
  unfold button_click
  rw [if_neg h1, if_neg h2, if_neg h3]
  rfl

/-- Witness for C10 at the concrete unknown callback data `"other"`. -/
theorem unknown_button_ack_and_menu_witness :
    button_click "other" (.ok []) (fun _ _ => true) =
      [Msg.answer, Msg.menuMsg "What else would you like to do?"] :=
  unknown_button_ack_and_menu "other" (.ok []) (fun _ _ => true)
    (by decide) (by decide) (by decide)

/-- C6: the main menu is shown exactly once after `/start`, exactly once
after `/menu`, and exactly once after any button click — including when
the clicked handler fails (fetch error) and reports an error. -/
theorem menu_shown_exactly_once :
    (∀ b : Bool, countMenu (start b) = 1) ∧
    countMenu menu_command = 1 ∧
    (∀ (data : String) (fetch : Except Unit (List (List String)))
      (ok : List String → String → Bool), countMenu (button_click data fetch ok) = 1) := by
  refine ⟨?_, rfl, ?_⟩
  · intro b; cases b <;> rfl
  · intro data fetch ok
    have hlp := countMenu_list_properties fetch ok
    unfold button_click
    split_ifs <;>
      simp_all [countMenu, isMenuMsg, List.countP_cons, List.countP_append]

/-- C7 counterexample: the `/menu` handler sends no greeting at all — its
trace is the single menu message, containing neither the greeting text
nor the greeting photo. -/
theorem menu_command_sends_no_greeting :
    menu_command = [Msg.menuMsg "Please choose an option:"] ∧
    Msg.text welcomeText ∉ menu_command ∧
    Msg.photoMsg welcomeText ∉ menu_command := by
  refine ⟨rfl, ?_, ?_⟩ <;> decide

/-- C7 amended: `/start` sends a greeting (photo, or text when the
welcome image is missing) followed by the menu, but `/menu` re-shows only
the menu, with no greeting. -/
theorem start_greets_then_menu_but_menu_only_menu :
    (∀ b : Bool, ∃ g,
      start b = [g, Msg.menuMsg "Please choose an option:"] ∧
      (g = Msg.photoMsg welcomeText ∨ g = Msg.text welcomeText)) ∧
    menu_command = [Msg.menuMsg "Please choose an option:"] := by
  refine ⟨?_, rfl⟩
  intro b
  cases b
  · exact ⟨Msg.text welcomeText, rfl, Or.inr rfl⟩
  · exact ⟨Msg.photoMsg welcomeText, rfl, Or.inl rfl⟩

/-- C9: splitting any string on commas yields at least one element, so
the image-URL list of a rendered row is never empty and the plain-text
branch that skips the media-group attempt is unreachable: every row with
at least 6 fields yields either the media-group post or its fallback. -/
theorem rendered_listing_always_attempts_media_post :
    (∀ s : String, image_urls s ≠ []) ∧
    (∀ (ok : List String → String → Bool) (row : List String), 6 ≤ row.length →
      renderRow ok row =
        [Msg.mediaGroup (image_urls (row.getD 5 "")) (property_info row)] ∨
      renderRow ok row =
        [Msg.text (property_info row ++ "\n\nImages: "
          ++ joinComma (image_urls (row.getD 5 "")))]) := by
  refine ⟨image_urls_ne_nil, ?_⟩
  intro ok row h
  have hne := image_urls_ne_nil (row.getD 5 "")
  unfold renderRow
  rw [if_pos h]
  dsimp only
  rw [if_neg (by simp only [List.isEmpty_iff]; exact hne)]
  by_cases hok : ok (image_urls (row.getD 5 "")) (property_info row) = true
  · exact Or.inl (by rw [if_pos hok])
  · exact Or.inr (by rw [if_neg hok])

/-- Witness for C9 at a concrete six-field row with a succeeding send. -/
theorem rendered_listing_always_attempts_media_post_witness :
    renderRow (fun _ _ => true) ["RM 100", "KL", "1000 sqft", "3", "Nice", "a.jpg, b.jpg"] =
      [Msg.mediaGroup
        (image_urls ((["RM 100", "KL", "1000 sqft", "3", "Nice", "a.jpg, b.jpg"] : List String).getD 5 ""))
        (property_info ["RM 100", "KL", "1000 sqft", "3", "Nice", "a.jpg, b.jpg"])] ∨
    renderRow (fun _ _ => true) ["RM 100", "KL", "1000 sqft", "3", "Nice", "a.jpg, b.jpg"] =
      [Msg.text (property_info ["RM 100", "KL", "1000 sqft", "3", "Nice", "a.jpg, b.jpg"]
        ++ "\n\nImages: "
        ++ joinComma (image_urls ((["RM 100", "KL", "1000 sqft", "3", "Nice", "a.jpg, b.jpg"] : List String).getD 5 "")))] :=
  rendered_listing_always_attempts_media_post.2 (fun _ _ => true)
    ["RM 100", "KL", "1000 sqft", "3", "Nice", "a.jpg, b.jpg"] (by decide)

/-- C4: when the multi-image post fails for a rendered listing, the
handler sends exactly one fallback text reply, and that reply contains
the attempted caption (the display text) and every image URL of the
listing. -/
theorem fallback_on_media_failure (ok : List String → String → Bool)
    (row : List String) (h : 6 ≤ row.length)
    (hfail : ok (image_urls (row.getD 5 "")) (property_info row) = false) :
    renderRow ok row =
      [Msg.text (property_info row ++ "\n\nImages: "
        ++ joinComma (image_urls (row.getD 5 "")))] ∧
    (property_info row).data <:+:
      (property_info row ++ "\n\nImages: "
        ++ joinComma (image_urls (row.getD 5 ""))).data ∧
    ∀ u ∈ image_urls (row.getD 5 ""),
      u.data <:+:
        (property_info row ++ "\n\nImages: "
          ++ joinComma (image_urls (row.getD 5 ""))).data := by
  refine ⟨?_, ?_, ?_⟩
  · have hne := image_urls_ne_nil (row.getD 5 "")
    unfold renderRow
    rw [if_pos h]
    dsimp only
    rw [if_neg (by simp only [List.isEmpty_iff]; exact hne)]
    rw [if_neg (by rw [hfail]; exact Bool.false_ne_true)]
  · rw [String.data_append, String.data_append]
    exact ⟨[], "\n\nImages: ".data ++ (joinComma (image_urls (row.getD 5 ""))).data, by simp⟩
  · intro u hu
    have hj := mem_joinComma_infix (image_urls (row.getD 5 "")) u hu
    have hsfx : (joinComma (image_urls (row.getD 5 ""))).data <:+:
        (property_info row ++ "\n\nImages: "
          ++ joinComma (image_urls (row.getD 5 ""))).data := by
      rw [String.data_append]
      exact (List.suffix_append _ _).isInfix
    exact hj.trans hsfx

/-- Witness for C4: a concrete six-field row with an always-failing
media-group send. -/
theorem fallback_on_media_failure_witness :
    renderRow (fun _ _ => false) ["RM 100", "KL", "1000 sqft", "3", "Nice", "a.jpg, b.jpg"] =
      [Msg.text (property_info ["RM 100", "KL", "1000 sqft", "3", "Nice", "a.jpg, b.jpg"]
        ++ "\n\nImages: "
        ++ joinComma (image_urls ((["RM 100", "KL", "1000 sqft", "3", "Nice", "a.jpg, b.jpg"] : List String).getD 5 "")))] ∧
    (property_info ["RM 100", "KL", "1000 sqft", "3", "Nice", "a.jpg, b.jpg"]).data <:+:
      (property_info ["RM 100", "KL", "1000 sqft", "3", "Nice", "a.jpg, b.jpg"]
        ++ "\n\nImages: "
        ++ joinComma (image_urls ((["RM 100", "KL", "1000 sqft", "3", "Nice", "a.jpg, b.jpg"] : List String).getD 5 ""))).data ∧
    ∀ u ∈ image_urls ((["RM 100", "KL", "1000 sqft", "3", "Nice", "a.jpg, b.jpg"] : List String).getD 5 ""),
      u.data <:+:
        (property_info ["RM 100", "KL", "1000 sqft", "3", "Nice", "a.jpg, b.jpg"]
          ++ "\n\nImages: "
          ++ joinComma (image_urls ((["RM 100", "KL", "1000 sqft", "3", "Nice", "a.jpg, b.jpg"] : List String).getD 5 ""))).data :=
  fallback_on_media_failure (fun _ _ => false)
    ["RM 100", "KL", "1000 sqft", "3", "Nice", "a.jpg, b.jpg"] (by decide) (by decide)

/-- C3: the image-URL field is split on commas and each segment is
trimmed: concretely, `"a.jpg, b.jpg"` maps to `["a.jpg", "b.jpg"]`; in
general the result is the in-order image of the comma-separated segments
under `pyStrip`, and `pyStrip` returns an infix of its input whose first
and last characters are not whitespace. -/
theorem image_url_split_trims :
    image_urls "a.jpg, b.jpg" = ["a.jpg", "b.jpg"] ∧
    (∀ s : String, image_urls s = (pySplitComma s).map pyStrip) ∧
    (∀ t : String, (pyStrip t).data <:+: t.data ∧
      (∀ c, (pyStrip t).data.head? = some c → isPySpace c = false) ∧
      (∀ c, (pyStrip t).data.getLast? = some c → isPySpace c = false)) := by
  refine ⟨by decide, fun s => rfl, fun t => ⟨?_, ?_, ?_⟩⟩
  · show ((t.data.dropWhile isPySpace).rdropWhile isPySpace) <:+: t.data
    exact (List.rdropWhile_prefix _ _).isInfix.trans
      (List.dropWhile_suffix _).isInfix
  · intro c hc
    have hm : (t.data.dropWhile isPySpace).head? = some c :=
      head?_of_prefix (List.rdropWhile_prefix _ _) c hc
    exact head?_dropWhile_not isPySpace t.data c hm
  · intro c hc
    have hne : (t.data.dropWhile isPySpace).rdropWhile isPySpace ≠ [] := by
      intro h0
      rw [show (pyStrip t).data = (t.data.dropWhile isPySpace).rdropWhile isPySpace from rfl,
        h0] at hc
      simp at hc
    have hlast := List.rdropWhile_last_not isPySpace (t.data.dropWhile isPySpace) hne
    have hc2 : ((t.data.dropWhile isPySpace).rdropWhile isPySpace).getLast hne = c := by
      have := List.getLast?_eq_getLast _ hne
      rw [show (pyStrip t).data = (t.data.dropWhile isPySpace).rdropWhile isPySpace from rfl,
        this] at hc
      exact Option.some.inj hc
    rw [← hc2]
    exact Bool.eq_false_iff.mpr hlast

/-- Witness for C3: the trimmed-result guarantees applied to the
concrete field `"  a.jpg "`. -/
theorem image_url_split_trims_witness :
    (pyStrip "  a.jpg ").data <:+: ("  a.jpg " : String).data ∧
    isPySpace 'a' = false ∧ isPySpace 'g' = false :=
  ⟨(image_url_split_trims.2.2 "  a.jpg ").1,
   (image_url_split_trims.2.2 "  a.jpg ").2.1 'a' (by decide),
   (image_url_split_trims.2.2 "  a.jpg ").2.2 'g' (by decide)⟩

end PropertyBot
